import Mathlib

/-!
Shallow embedding of the GDPopt decomposition solver
(`pyomo/contrib/gdpopt/GDPopt.py`, version 0.3.0).

The control-flow and policy logic of `GDPoptSolver.solve`, `_validate_model`,
`_GDPopt_initialize_master` and `_GDPopt_iteration_loop` is translated into
executable Lean definitions.  The external MILP/NLP solver calls and the
helper routines that live in modules outside this repository snapshot
(`solve_OA_master`, `solve_NLP`, `algorithm_should_terminate`,
`update_nlp_progress_indicators`, the cut-generation helpers, model cloning
and `copy_var_list_values`) are abstracted as oracle parameters observed at
their call sites.  Machine floats are modelled as exact rationals.
-/

namespace GDPopt

/-- Objective sense, `pyomo.core.base.minimize` / `maximize`. -/
inductive Sense
  | minimize
  | maximize
deriving DecidableEq, Repr

/-- The solver configuration fields of `GDPoptSolver.CONFIG` that the
iteration loop reads (GDPopt.py lines 67-174).  `iterlim` has domain
`NonNegativeInt`, hence `Nat`. -/
structure Config where
  iterlim : Nat
  strategy : String
  init_strategy : String
  integer_tolerance : ℚ
  round_NLP_binaries : Bool

/-- Validation domain attached to a `ConfigValue` declaration.
`nonNegativeFloat` corresponds to `domain=NonNegativeFloat`; `anyValue`
corresponds to a declaration with no `domain` argument at all. -/
inductive ConfigDomain
  | nonNegativeFloat
  | anyValue
deriving DecidableEq, Repr

/-- Domain of `bound_tolerance` (line 143-146): `domain=NonNegativeFloat`. -/
def bound_tolerance_domain : ConfigDomain := .nonNegativeFloat

/-- Domain of `small_dual_tolerance` (lines 147-152): no `domain` argument. -/
def small_dual_tolerance_domain : ConfigDomain := .anyValue

/-- Domain of `integer_tolerance` (lines 153-156): no `domain` argument. -/
def integer_tolerance_domain : ConfigDomain := .anyValue

/-- Domain of `constraint_tolerance` (lines 157-160): no `domain` argument. -/
def constraint_tolerance_domain : ConfigDomain := .anyValue

/-- Domain of `variable_tolerance` (lines 161-164): no `domain` argument. -/
def variable_tolerance_domain : ConfigDomain := .anyValue

/-- Whether a `ConfigValue` with the given domain accepts a numeric value:
`NonNegativeFloat` rejects negatives, an absent domain accepts anything. -/
def domain_accepts : ConfigDomain → ℚ → Bool
  | .nonNegativeFloat, v => decide (0 ≤ v)
  | .anyValue, _ => true

/-- The `In` domain of the `init_strategy` option (lines 76-82). -/
def init_strategy_allowed : List String :=
  ["set_covering", "max_binary", "fixed_binary", "custom_disjuncts"]

/-- Whether the `init_strategy` config declaration accepts a strategy name. -/
def init_strategy_domain_accepts (s : String) : Bool :=
  init_strategy_allowed.contains s

/-- Outcome of `_GDPopt_initialize_master`'s strategy dispatch. -/
inductive InitDispatch
  | ranStrategy (fn : String)
  | raisedUnknownStrategy
deriving DecidableEq, Repr

/-- The strategy dispatch of `_GDPopt_initialize_master` (lines 396-411):
the `valid_init_strategies` dict maps `fixed_binary` to `None`; `.get`
returns `None` both for that key and for unknown keys, and a `None` result
takes the `raise ValueError(Unknown initialization strategy ...)` branch. -/
def initialize_master_dispatch (s : String) : InitDispatch :=
  let lookup : Option String :=
    if s = "set_covering" then some "init_set_covering"
    else if s = "max_binary" then some "init_max_binaries"
    else if s = "fixed_binary" then none
    else if s = "custom_disjuncts" then some "init_custom_disjuncts"
    else none
  match lookup with
  | some fn => .ranStrategy fn
  | none => .raisedUnknownStrategy

/-- `solve_data.no_discrete_decisions` (lines 332-339): true when the problem
has zero binary variables and zero disjunctions. -/
def no_discrete_decisions (num_binary_vars num_disjunctions : Nat) : Bool :=
  num_binary_vars == 0 && num_disjunctions == 0

/-- Whether `GDPopt.no_backtracking.deactivate()` is executed before the main
loop (lines 268-274): the code runs it under
`if not solve_data.no_discrete_decisions`. -/
def no_backtracking_deactivated (num_binary_vars num_disjunctions : Nat) : Bool :=
  !no_discrete_decisions num_binary_vars num_disjunctions

/-- Direction of the epigraph constraint created in `_validate_model`. -/
inductive ConstraintRel
  | ge
  | le
deriving DecidableEq, Repr

/-- Semantics of an epigraph constraint `objective_value REL expr` on concrete
values: first argument is the epigraph variable, second the objective
expression value. -/
def rel_holds : ConstraintRel → ℚ → ℚ → Prop
  | .ge, v, e => e ≤ v
  | .le, v, e => v ≤ e

/-- Observable outcome of a successful `_validate_model` run. -/
structure ValidationOutcome where
  warned_no_objective : Bool
  added_dummy_objective : Bool
  epigraph_rel : ConstraintRel
  orig_obj_active : Bool
  new_obj_sense : Sense
deriving DecidableEq, Repr

/-- Errors raised by `_validate_model`. -/
inductive ValidationError
  | integerVariablesError
  | multipleObjectivesError
deriving DecidableEq, Repr

/-- Epigraph direction chosen at lines 362-368: `objective_value >= expr`
for a minimize objective, `objective_value <= expr` otherwise. -/
def epigraph_of_sense : Sense → ConstraintRel
  | .minimize => .ge
  | .maximize => .le

/-- `_validate_model` (lines 316-372): reject unfixed integer variables;
with zero active objectives warn and insert the dummy `Objective(expr=1)`
(whose default sense is minimize); with more than one active objective raise
`ValueError`; then move the main objective into the epigraph constraint,
deactivate it and create the new objective with the same sense. -/
def validate_model (num_integer_vars num_active_objectives : Nat)
    (obj_sense : Sense) : Except ValidationError ValidationOutcome :=
  if 0 < num_integer_vars then
    .error .integerVariablesError
  else if num_active_objectives = 0 then
    .ok { warned_no_objective := true
          added_dummy_objective := true
          epigraph_rel := epigraph_of_sense .minimize
          orig_obj_active := false
          new_obj_sense := .minimize }
  else if 1 < num_active_objectives then
    .error .multipleObjectivesError
  else
    .ok { warned_no_objective := false
          added_dummy_objective := false
          epigraph_rel := epigraph_of_sense obj_sense
          orig_obj_active := false
          new_obj_sense := obj_sense }

/-- The phases of `GDPoptSolver.solve` in source order (lines 203-308). -/
inductive Phase
  | parseConfig
  | attachUtilsBlock
  | cloneWorkingModel
  | reformulateIntegerVars
  | buildComponentLists
  | recordProblemStatistics
  | saveInitialValues
  | validateModelPhase
  | setupCutLists
  | initCounters
  | initializeMaster
  | iterationLoopPhase
  | copyBackWorking
  | copyBackOriginal
deriving DecidableEq, Repr

/-- The sequence of phases executed by `GDPoptSolver.solve`, in the order
they appear in the method body (lines 203, 222, 227, 233, 237, 238, 243,
251, 254-274, 277-288, 291, 294, 297, 305). -/
def solve_phases : List Phase :=
  [.parseConfig, .attachUtilsBlock, .cloneWorkingModel, .reformulateIntegerVars,
   .buildComponentLists, .recordProblemStatistics, .saveInitialValues,
   .validateModelPhase, .setupCutLists, .initCounters, .initializeMaster,
   .iterationLoopPhase, .copyBackWorking, .copyBackOriginal]

/-- Effect of one step of the discrete-value copy loop (lines 439-454) on
one `(var, val)` pair from `zip(working_var_list, mip_var_values)`. -/
inductive BinaryAssign
  | skipped
  | assigned (v : ℚ)
  | raisedNonIntegral
deriving DecidableEq, Repr

/-- Python's `int(round(v))`: round half away from zero, as in the Python 2
semantics active under this module's `from __future__ import division`. -/
def pyRound (v : ℚ) : ℤ :=
  if 0 ≤ v then ⌊v + 1 / 2⌋ else -⌊-v + 1 / 2⌋

/-- One iteration of the copy loop at lines 439-454: `None` values are
skipped; non-binary variables receive the value directly; a binary variable
is rounded to `int(round(val))` when within `integer_tolerance` of 0 or 1
and `round_NLP_binaries` is set, and otherwise a `ValueError` is raised. -/
def assign_binary_value (val : Option ℚ) (is_binary : Bool) (tol : ℚ)
    (round_flag : Bool) : BinaryAssign :=
  match val with
  | none => .skipped
  | some v =>
    if !is_binary then .assigned v
    else if (|v| ≤ tol ∨ |v - 1| ≤ tol) ∧ round_flag = true then
      .assigned (pyRound v : ℚ)
    else .raisedNonIntegral

/-- Whether the copy loop at lines 439-454 raises the non-integral-binary
`ValueError` for some variable/value pair. -/
def binary_copy_raises (tol : ℚ) (round_flag : Bool) (bins : List Bool)
    (vals : List (Option ℚ)) : Bool :=
  (List.zip bins vals).any fun p =>
    decide (assign_binary_value p.2 p.1 tol round_flag = .raisedNonIntegral)

/-- Oracles abstracting the external calls made by the iteration loop, each
indexed by the value of `master_iteration` during the pass that makes the
call: `solve_OA_master`'s returned variable values (line 429),
`algorithm_should_terminate` at the first and second check (lines 433, 469),
`solve_NLP`'s feasibility result (line 459), and the update that
`update_nlp_progress_indicators` applies to `best_solution_found`
(line 462).  Modelled from the spec: these routines live outside this
repository snapshot; per spec 3 and 4.6, `bestSolutionFound` is overwritten
only when a strictly improving feasible NLP solution is found, here `some`
replacement values, with `none` meaning no improvement. -/
structure Oracles where
  mip_var_values : Nat → List (Option ℚ)
  terminate_after_master : Nat → Bool
  nlp_feasible : Nat → Bool
  improved_solution : Nat → Option (List ℚ)
  terminate_after_cuts : Nat → Bool

/-- The fields of `solve_data` (and the cut bookkeeping on `GDPopt_utils`)
that the iteration loop reads and writes.  `master_solves` and `nlp_solves`
record the `master_iteration` values at which `solve_OA_master` and
`solve_NLP` were called; `oa_cut_iters` records the passes at which
`add_outer_approximation_cuts` stored cuts; `integer_cut_iters` records the
passes at which `add_integer_cut` stored a cut, with the `feasible` flag it
was passed. -/
structure LoopState where
  master_iteration : Nat
  mip_iteration : Nat
  nlp_iteration : Nat
  best_solution_found : List ℚ
  master_solves : List Nat
  nlp_solves : List Nat
  oa_cut_iters : List Nat
  integer_cut_iters : List (Nat × Bool)
deriving DecidableEq, Repr

/-- Result of one pass of the `while` body in `_GDPopt_iteration_loop`:
fell through to the bottom, hit `break` at a termination check, or raised
the non-integral-binary `ValueError`. -/
inductive PassOutcome
  | fellThrough (st : LoopState)
  | broke (st : LoopState)
  | raised (st : LoopState)
deriving DecidableEq, Repr

/-- The state carried by a pass outcome. -/
def PassOutcome.state : PassOutcome → LoopState
  | .fellThrough st => st
  | .broke st => st
  | .raised st => st

/-- One pass of the `while` body of `_GDPopt_iteration_loop`
(lines 419-470): increment `master_iteration`, reset the per-pass counters,
solve the master MILP when the strategy is LOA, check termination, copy the
discrete values into the NLP clone (possibly raising), solve the NLP
subproblem, store outer-approximation cuts only when it was feasible, store
the integer cut unconditionally, and check termination again. -/
def loop_pass (cfg : Config) (orc : Oracles) (bins : List Bool)
    (st : LoopState) : PassOutcome :=
  let it := st.master_iteration + 1
  let st1 := { st with master_iteration := it, mip_iteration := 0,
                       nlp_iteration := 0 }
  let st2 := if cfg.strategy = "LOA"
    then { st1 with master_solves := st1.master_solves ++ [it] }
    else st1
  let vals := orc.mip_var_values it
  if orc.terminate_after_master it then .broke st2
  else
    let st3 := { st2 with nlp_iteration := st2.nlp_iteration + 1 }
    if binary_copy_raises cfg.integer_tolerance cfg.round_NLP_binaries bins vals
    then .raised st3
    else
      let st4 := { st3 with nlp_solves := st3.nlp_solves ++ [it] }
      let feas := orc.nlp_feasible it
      let st5 :=
        if feas then
          let stb := match orc.improved_solution it with
            | some b => { st4 with best_solution_found := b }
            | none => st4
          { stb with oa_cut_iters := stb.oa_cut_iters ++ [it] }
        else st4
      let st6 :=
        { st5 with integer_cut_iters := st5.integer_cut_iters ++ [(it, feas)] }
      if orc.terminate_after_cuts it then .broke st6 else .fellThrough st6

/-- Fuel-indexed unfolding of the `while solve_data.master_iteration <
config.iterlim` loop (line 419).  Each pass increments `master_iteration` by
exactly one, so with fuel `iterlim - master_iteration` the fuel reaches zero
exactly when the guard fails.  The boolean result is `true` when the pass
raised the non-integral-binary `ValueError`. -/
def iteration_loop_fuel (cfg : Config) (orc : Oracles) (bins : List Bool) :
    Nat → LoopState → LoopState × Bool
  | 0, st => (st, false)
  | fuel + 1, st =>
    if st.master_iteration < cfg.iterlim then
      match loop_pass cfg orc bins st with
      | .fellThrough st' => iteration_loop_fuel cfg orc bins fuel st'
      | .broke st' => (st', false)
      | .raised st' => (st', true)
    else (st, false)

/-- `_GDPopt_iteration_loop` (lines 413-470). -/
def iteration_loop (cfg : Config) (orc : Oracles) (bins : List Bool)
    (st : LoopState) : LoopState × Bool :=
  iteration_loop_fuel cfg orc bins (cfg.iterlim - st.master_iteration) st

/-- Observable state of the caller's model object, with the problem
statistics recorded from it.  `has_gdpopt_utils` is whether a `GDPopt_utils`
attribute exists on the model; `var_values` is the value vector of the
model's ordered variable list. -/
structure PyModel where
  has_gdpopt_utils : Bool
  num_integer_variables : Nat
  num_binary_variables : Nat
  num_disjunctions : Nat
  num_active_objectives : Nat
  obj_sense : Sense
  var_values : List ℚ
  var_is_binary : List Bool
deriving DecidableEq, Repr

/-- Result of `GDPoptSolver.solve`, carrying the state of the caller's
original model object at the moment solve returns or the exception
propagates (the `try/finally` at line 313 only restores the logger level,
it undoes nothing on the model). -/
inductive SolveResult
  | ok (final : PyModel) (st : LoopState)
  | runtimeErrorUtilsExists (final : PyModel)
  | integerVariablesError (final : PyModel)
  | multipleObjectivesError (final : PyModel)
  | nonIntegralBinaryError (final : PyModel)
deriving DecidableEq, Repr

/-- The caller's model state carried by a solve result. -/
def SolveResult.model : SolveResult → PyModel
  | .ok m _ => m
  | .runtimeErrorUtilsExists m => m
  | .integerVariablesError m => m
  | .multipleObjectivesError m => m
  | .nonIntegralBinaryError m => m

/-- `solve_data` as set up at lines 242-288: counters at zero, empty cut
bookkeeping, and `best_solution_found` initialized to the saved initial
variable values (line 248). -/
def initial_loop_state (best : List ℚ) : LoopState :=
  { master_iteration := 0, mip_iteration := 0, nlp_iteration := 0,
    best_solution_found := best, master_solves := [], nlp_solves := [],
    oa_cut_iters := [], integer_cut_iters := [] }

/-- `GDPoptSolver.solve` (lines 189-314): raise if a `GDPopt_utils`
attribute already exists, otherwise attach it to the caller's model
(line 222) before cloning; save the initial variable values and seed
`best_solution_found` with them; validate; run the iteration loop; finally
copy `best_solution_found` back into the working and original models
(lines 296-308).  Modelled from the spec: `clone_orig_model_with_lists` and
`copy_var_list_values` live outside this repository snapshot; per spec 4.1
and 4.6 the clone preserves the index-aligned variable values and the
copy-back writes `bestSolutionFound` elementwise into the caller's model.
The attachment at line 222 precedes validation, which is why every outcome
past the name-collision check carries `has_gdpopt_utils := true`. -/
def gdpopt_solve (cfg : Config) (orc : Oracles) (m : PyModel) : SolveResult :=
  if m.has_gdpopt_utils then
    .runtimeErrorUtilsExists m
  else
    match validate_model m.num_integer_variables m.num_active_objectives
        m.obj_sense with
    | .error .integerVariablesError =>
        .integerVariablesError { m with has_gdpopt_utils := true }
    | .error .multipleObjectivesError =>
        .multipleObjectivesError { m with has_gdpopt_utils := true }
    | .ok _ =>
      match iteration_loop cfg orc m.var_is_binary
          (initial_loop_state m.var_values) with
      | (_, true) =>
          .nonIntegralBinaryError { m with has_gdpopt_utils := true }
      | (st, false) =>
          .ok { m with has_gdpopt_utils := true,
                       var_values := st.best_solution_found } st

/-- A concrete configuration exercising a loop pass. -/
def cfgW : Config :=
  { iterlim := 5, strategy := "LOA", init_strategy := "set_covering",
    integer_tolerance := 1 / 100000, round_NLP_binaries := true }

/-- A concrete configuration with a zero iteration limit. -/
def cfgW0 : Config :=
  { cfgW with iterlim := 0 }

/-- Concrete oracles: the master always returns the assignment `[1, 0]`,
termination never fires, the subproblem is always feasible and never
improves the incumbent. -/
def orcW : Oracles :=
  { mip_var_values := fun _ => [some 1, some 0],
    terminate_after_master := fun _ => false,
    nlp_feasible := fun _ => true,
    improved_solution := fun _ => none,
    terminate_after_cuts := fun _ => false }

/-- A fresh loop state over two variables with initial values `[0, 0]`. -/
def stW : LoopState := initial_loop_state [0, 0]

/-- A concrete model with one binary variable and one active objective. -/
def mW : PyModel :=
  { has_gdpopt_utils := false, num_integer_variables := 0,
    num_binary_variables := 1, num_disjunctions := 0,
    num_active_objectives := 1, obj_sense := .minimize,
    var_values := [3, 5 / 2], var_is_binary := [true, false] }

/-- The model `mW` with two active objectives. -/
def mMulti : PyModel := { mW with num_active_objectives := 2 }

/-- C3 counterexample: for a problem with one binary variable and zero
disjunctions the code deactivates the no-backtracking cut set even though
the problem has discrete decisions, refuting the claimed equivalence between
deactivation and the absence of discrete decisions. -/
theorem no_backtracking_claim_false :
    ¬(no_backtracking_deactivated 1 0 = true ↔
        no_discrete_decisions 1 0 = true) := by
  decide

/-- C3 (amended): the no-backtracking cut set is deactivated before the main
loop starts if and only if the problem has at least one discrete decision
(a binary variable or a disjunction); with no discrete decisions at all the
cuts remain active. -/
theorem no_backtracking_deactivation_rule (nb nd : Nat) :
    no_backtracking_deactivated nb nd = true ↔ (nb ≠ 0 ∨ nd ≠ 0) := by
  simp [no_backtracking_deactivated, no_discrete_decisions,
        Decidable.not_and_iff_or_not]

/-- C4: the `init_strategy` config domain accepts `fixed_binary` as one of
the four documented strategy names and rejects names outside them, yet
`_GDPopt_initialize_master` raises its unknown-strategy `ValueError` for
`fixed_binary`, because the strategy dict maps that key to `None` and the
`None` lookup result is indistinguishable from an unknown key. -/
theorem fixed_binary_dispatch_bug :
    init_strategy_domain_accepts "fixed_binary" = true ∧
    initialize_master_dispatch "fixed_binary" = .raisedUnknownStrategy ∧
    initialize_master_dispatch "set_covering"
      = .ranStrategy "init_set_covering" ∧
    initialize_master_dispatch "max_binary"
      = .ranStrategy "init_max_binaries" ∧
    initialize_master_dispatch "custom_disjuncts"
      = .ranStrategy "init_custom_disjuncts" ∧
    init_strategy_domain_accepts "bogus" = false := by
  decide

/-- C5: validation of a model with zero active objectives succeeds, adding
the dummy objective and surfacing a warning; with two or more active
objectives validation fails with the multiple-objectives error; and in
`solve` the validation phase precedes master initialization, which precedes
the iteration loop. -/
theorem objective_count_validation (s : Sense) (n : Nat) :
    validate_model 0 0 s =
      .ok { warned_no_objective := true, added_dummy_objective := true,
            epigraph_rel := .ge, orig_obj_active := false,
            new_obj_sense := .minimize } ∧
    validate_model 0 (n + 2) s = .error .multipleObjectivesError ∧
    solve_phases.indexOf .validateModelPhase
      < solve_phases.indexOf .initializeMaster ∧
    solve_phases.indexOf .initializeMaster
      < solve_phases.indexOf .iterationLoopPhase := by
  have h1 : ¬(0 < 0) := by omega
  have h2 : ¬(n + 2 = 0) := by omega
  have h3 : 1 < n + 2 := by omega
  exact ⟨rfl, by simp [validate_model, h1, h2, h3], by decide, by decide⟩

/-- C6: for a model with exactly one active objective, validation
deactivates the original objective, keeps the original sense on the new
epigraph-variable objective, and the epigraph constraint holds exactly when
`epigraphVar ≥ expr` for a minimize objective and `epigraphVar ≤ expr` for a
maximize objective. -/
theorem epigraph_reformulation (s : Sense) (v e : ℚ) :
    (match validate_model 0 1 s with
     | .error _ => False
     | .ok o =>
         o.orig_obj_active = false ∧
         o.new_obj_sense = s ∧
         (rel_holds o.epigraph_rel v e ↔
           (s = Sense.minimize → e ≤ v) ∧ (s = Sense.maximize → v ≤ e))) := by
  cases s <;> simp [validate_model, epigraph_of_sense, rel_holds]

/-- C7: in the discrete-value copy step, a binary value exactly 0 or 1
raises the non-integral `ValueError` when `round_NLP_binaries` is disabled,
because the misfactored branch condition conjoins the tolerance test with
the rounding flag; with rounding enabled, in-tolerance values snap to the
exact integer and out-of-tolerance values raise. -/
theorem binary_rounding_branch_bug :
    assign_binary_value (some 0) true (1 / 100000) false
      = .raisedNonIntegral ∧
    assign_binary_value (some 1) true (1 / 100000) false
      = .raisedNonIntegral ∧
    assign_binary_value (some 0) true (1 / 100000) true = .assigned 0 ∧
    assign_binary_value (some (1 + 1 / 200000)) true (1 / 100000) true
      = .assigned 1 ∧
    assign_binary_value (some (1 / 2)) true (1 / 100000) true
      = .raisedNonIntegral := by
  refine ⟨by simp [assign_binary_value], by simp [assign_binary_value],
    ?_, ?_, ?_⟩
  · norm_num [assign_binary_value, pyRound, Int.floor_eq_iff]
  · norm_num [assign_binary_value, pyRound, Int.floor_eq_iff, abs_le]
  · norm_num [assign_binary_value, abs_le]

/-- C8 counterexample: a negative value is accepted by the config domains of
the integer, constraint, variable and small-dual tolerances, refuting the
claim that all five numeric tolerance options reject negative values. -/
theorem tolerance_negative_accepted :
    domain_accepts integer_tolerance_domain (-1) = true ∧
    domain_accepts constraint_tolerance_domain (-1) = true ∧
    domain_accepts variable_tolerance_domain (-1) = true ∧
    domain_accepts small_dual_tolerance_domain (-1) = true := by
  decide

/-- C8 (amended): only `bound_tolerance` declares the non-negative domain
and rejects negative values during option validation; the other four
tolerance options declare no domain and accept any value; option parsing is
the first phase of `solve`, before any solver call. -/
theorem tolerance_domain_validation (v : ℚ) :
    (domain_accepts bound_tolerance_domain v = true ↔ 0 ≤ v) ∧
    domain_accepts integer_tolerance_domain v = true ∧
    domain_accepts constraint_tolerance_domain v = true ∧
    domain_accepts variable_tolerance_domain v = true ∧
    domain_accepts small_dual_tolerance_domain v = true ∧
    solve_phases.indexOf Phase.parseConfig
      < solve_phases.indexOf Phase.initializeMaster := by
  refine ⟨?_, rfl, rfl, rfl, rfl, by decide⟩
  simp [domain_accepts, bound_tolerance_domain]

/-- Every pass of the loop body increments `master_iteration` by exactly
one, whatever its outcome. -/
theorem loop_pass_state_master_iteration (cfg : Config) (orc : Oracles)
    (bins : List Bool) (st : LoopState) :
    (loop_pass cfg orc bins st).state.master_iteration
      = st.master_iteration + 1 := by
  unfold loop_pass
  by_cases h1 : orc.terminate_after_master (st.master_iteration + 1) = true <;>
  by_cases h2 : binary_copy_raises cfg.integer_tolerance cfg.round_NLP_binaries
      bins (orc.mip_var_values (st.master_iteration + 1)) = true <;>
  by_cases h3 : orc.nlp_feasible (st.master_iteration + 1) = true <;>
  by_cases h4 : orc.terminate_after_cuts (st.master_iteration + 1) = true <;>
  by_cases h5 : cfg.strategy = "LOA" <;>
  cases h6 : orc.improved_solution (st.master_iteration + 1) <;>
  simp [h1, h2, h3, h4, h5, h6, PassOutcome.state]

/-- A pass whose improvement oracle reports no improvement leaves
`best_solution_found` untouched. -/
theorem loop_pass_state_best (cfg : Config) (orc : Oracles) (bins : List Bool)
    (st : LoopState)
    (hni : orc.improved_solution (st.master_iteration + 1) = none) :
    (loop_pass cfg orc bins st).state.best_solution_found
      = st.best_solution_found := by
  unfold loop_pass
  by_cases h1 : orc.terminate_after_master (st.master_iteration + 1) = true <;>
  by_cases h2 : binary_copy_raises cfg.integer_tolerance cfg.round_NLP_binaries
      bins (orc.mip_var_values (st.master_iteration + 1)) = true <;>
  by_cases h3 : orc.nlp_feasible (st.master_iteration + 1) = true <;>
  by_cases h4 : orc.terminate_after_cuts (st.master_iteration + 1) = true <;>
  by_cases h5 : cfg.strategy = "LOA" <;>
  simp [h1, h2, h3, h4, h5, hni, PassOutcome.state]

/-- The loop never drives `master_iteration` past `iterlim`. -/
theorem iteration_loop_fuel_master_le (cfg : Config) (orc : Oracles)
    (bins : List Bool) :
    ∀ fuel st, st.master_iteration ≤ cfg.iterlim →
      (iteration_loop_fuel cfg orc bins fuel st).1.master_iteration
        ≤ cfg.iterlim := by
  intro fuel
  induction fuel with
  | zero => intro st h; exact h
  | succ n ih =>
    intro st h
    by_cases hlt : st.master_iteration < cfg.iterlim
    · simp only [iteration_loop_fuel, if_pos hlt]
      have hmi := loop_pass_state_master_iteration cfg orc bins st
      cases hp : loop_pass cfg orc bins st with
      | fellThrough st' =>
        rw [hp] at hmi
        simp only [PassOutcome.state] at hmi
        exact ih st' (by omega)
      | broke st' =>
        rw [hp] at hmi
        simp only [PassOutcome.state] at hmi
        exact (by omega : st'.master_iteration ≤ cfg.iterlim)
      | raised st' =>
        rw [hp] at hmi
        simp only [PassOutcome.state] at hmi
        exact (by omega : st'.master_iteration ≤ cfg.iterlim)
    · simp only [iteration_loop_fuel, if_neg hlt]
      exact h

/-- When the improvement oracle never reports an improvement, the loop
leaves `best_solution_found` untouched. -/
theorem iteration_loop_fuel_best (cfg : Config) (orc : Oracles)
    (bins : List Bool) (hni : ∀ n, orc.improved_solution n = none) :
    ∀ fuel st,
      (iteration_loop_fuel cfg orc bins fuel st).1.best_solution_found
        = st.best_solution_found := by
  intro fuel
  induction fuel with
  | zero => intro st; rfl
  | succ n ih =>
    intro st
    by_cases hlt : st.master_iteration < cfg.iterlim
    · simp only [iteration_loop_fuel, if_pos hlt]
      have hb := loop_pass_state_best cfg orc bins st (hni _)
      cases hp : loop_pass cfg orc bins st with
      | fellThrough st' =>
        rw [hp] at hb
        simp only [PassOutcome.state] at hb
        rw [ih st', hb]
      | broke st' =>
        rw [hp] at hb
        simpa [PassOutcome.state] using hb
      | raised st' =>
        rw [hp] at hb
        simpa [PassOutcome.state] using hb
    · simp only [iteration_loop_fuel, if_neg hlt]

/-- Wrapper of `iteration_loop_fuel_best` for `iteration_loop`. -/
theorem iteration_loop_best (cfg : Config) (orc : Oracles) (bins : List Bool)
    (st : LoopState) (hni : ∀ n, orc.improved_solution n = none) :
    (iteration_loop cfg orc bins st).1.best_solution_found
      = st.best_solution_found := by
  unfold iteration_loop
  exact iteration_loop_fuel_best cfg orc bins hni _ st

/-- C1: in every pass of the main iteration loop that reaches the
subproblem solve (termination did not fire after the master solve and the
binary copy did not raise), outer-approximation cuts are stored if and only
if the subproblem was feasible, and the integer cut for the pass's discrete
assignment is stored unconditionally, tagged with the feasibility flag. -/
theorem cut_generation_policy (cfg : Config) (orc : Oracles) (bins : List Bool)
    (st : LoopState)
    (hm : orc.terminate_after_master (st.master_iteration + 1) = false)
    (hr : binary_copy_raises cfg.integer_tolerance cfg.round_NLP_binaries bins
            (orc.mip_var_values (st.master_iteration + 1)) = false) :
    (loop_pass cfg orc bins st).state.nlp_solves
        = st.nlp_solves ++ [st.master_iteration + 1] ∧
    (loop_pass cfg orc bins st).state.oa_cut_iters
        = (if orc.nlp_feasible (st.master_iteration + 1) = true
           then st.oa_cut_iters ++ [st.master_iteration + 1]
           else st.oa_cut_iters) ∧
    (loop_pass cfg orc bins st).state.integer_cut_iters
        = st.integer_cut_iters
            ++ [(st.master_iteration + 1,
                 orc.nlp_feasible (st.master_iteration + 1))] := by
  unfold loop_pass
  by_cases h3 : orc.nlp_feasible (st.master_iteration + 1) = true <;>
  by_cases h4 : orc.terminate_after_cuts (st.master_iteration + 1) = true <;>
  by_cases h5 : cfg.strategy = "LOA" <;>
  cases h6 : orc.improved_solution (st.master_iteration + 1) <;>
  simp [hm, hr, h3, h4, h5, h6, PassOutcome.state]

/-- C1 witness: a concrete pass whose master assignment is `[1, 0]` over a
binary and a continuous variable, with no termination and a feasible
subproblem. -/
theorem cut_generation_policy_witness :
    (loop_pass cfgW orcW [true, false] stW).state.nlp_solves
        = stW.nlp_solves ++ [stW.master_iteration + 1] ∧
    (loop_pass cfgW orcW [true, false] stW).state.oa_cut_iters
        = (if orcW.nlp_feasible (stW.master_iteration + 1) = true
           then stW.oa_cut_iters ++ [stW.master_iteration + 1]
           else stW.oa_cut_iters) ∧
    (loop_pass cfgW orcW [true, false] stW).state.integer_cut_iters
        = stW.integer_cut_iters
            ++ [(stW.master_iteration + 1,
                 orcW.nlp_feasible (stW.master_iteration + 1))] :=
  cut_generation_policy cfgW orcW [true, false] stW rfl
    (by
      norm_num [binary_copy_raises, assign_binary_value, cfgW, orcW, stW,
        initial_loop_state]
      exact ⟨by simp, by simp⟩)

/-- C2: starting from `master_iteration = 0`, the loop body runs at most
`iterlim` times, so the final `master_iteration` never exceeds `iterlim`;
with `iterlim = 0` the loop returns immediately with the state unchanged,
hence no master solve and no subproblem solve are recorded. -/
theorem iterlim_bounds_loop (cfg : Config) (orc : Oracles) (bins : List Bool)
    (st : LoopState) (h0 : st.master_iteration = 0) :
    (iteration_loop cfg orc bins st).1.master_iteration ≤ cfg.iterlim ∧
    (cfg.iterlim = 0 → iteration_loop cfg orc bins st = (st, false)) := by
  constructor
  · unfold iteration_loop
    exact iteration_loop_fuel_master_le cfg orc bins _ st (by omega)
  · intro hz
    unfold iteration_loop
    simp [hz, iteration_loop_fuel]

/-- C2 witness: a zero iteration limit with a fresh loop state. -/
theorem iterlim_bounds_loop_witness :
    (iteration_loop cfgW0 orcW [] stW).1.master_iteration ≤ cfgW0.iterlim ∧
    (cfgW0.iterlim = 0 → iteration_loop cfgW0 orcW [] stW = (stW, false)) :=
  iterlim_bounds_loop cfgW0 orcW [] stW rfl

/-- C9 counterexample: on a model with two active objectives, solve aborts
with the multiple-objectives error, yet the caller's original model is left
with the `GDPopt_utils` block attached, so it is not "exactly as it was
before the call". -/
theorem original_model_mutated_on_error :
    gdpopt_solve cfgW0 orcW mMulti
        = .multipleObjectivesError { mMulti with has_gdpopt_utils := true } ∧
    ({ mMulti with has_gdpopt_utils := true } : PyModel) ≠ mMulti := by
  refine ⟨rfl, fun h => ?_⟩
  have hh := congrArg PyModel.has_gdpopt_utils h
  simp [mMulti, mW] at hh

/-- C9 (amended): for a model without a pre-existing `GDPopt_utils` block,
solve mutates the caller's original model by attaching that block before
cloning; on any fatal error raised after that point the block remains
attached and nothing else changes, and on successful completion the only
further mutation is the final copy-back of `best_solution_found` into the
variable values. -/
theorem solve_mutation_profile (cfg : Config) (orc : Oracles) (m : PyModel)
    (h : m.has_gdpopt_utils = false) :
    (match gdpopt_solve cfg orc m with
     | .ok final st =>
         final = { m with has_gdpopt_utils := true,
                          var_values := st.best_solution_found }
     | .runtimeErrorUtilsExists _ => False
     | .integerVariablesError final =>
         final = { m with has_gdpopt_utils := true }
     | .multipleObjectivesError final =>
         final = { m with has_gdpopt_utils := true }
     | .nonIntegralBinaryError final =>
         final = { m with has_gdpopt_utils := true }) := by
  unfold gdpopt_solve
  rw [if_neg (by simp [h])]
  rcases hv : validate_model m.num_integer_variables m.num_active_objectives
      m.obj_sense with e | o
  · cases e <;> simp
  · rcases hl : iteration_loop cfg orc m.var_is_binary
        (initial_loop_state m.var_values) with ⟨st2, b⟩
    cases b <;> simp

/-- C9 (amended) witness: the concrete model `mW` under the zero-limit
configuration. -/
theorem solve_mutation_profile_witness :
    (match gdpopt_solve cfgW0 orcW mW with
     | .ok final st =>
         final = { mW with has_gdpopt_utils := true,
                           var_values := st.best_solution_found }
     | .runtimeErrorUtilsExists _ => False
     | .integerVariablesError final =>
         final = { mW with has_gdpopt_utils := true }
     | .multipleObjectivesError final =>
         final = { mW with has_gdpopt_utils := true }
     | .nonIntegralBinaryError final =>
         final = { mW with has_gdpopt_utils := true }) :=
  solve_mutation_profile cfgW0 orcW mW rfl

/-- C10: `best_solution_found` is seeded with the model's initial variable
values, so in any run of solve that completes without ever finding an
improving feasible NLP solution, the values copied back into the caller's
model equal the variable values from before the call. -/
theorem no_improvement_preserves_values (cfg : Config) (orc : Oracles)
    (m final : PyModel) (st : LoopState)
    (hni : ∀ n, orc.improved_solution n = none)
    (hok : gdpopt_solve cfg orc m = .ok final st) :
    st.best_solution_found = m.var_values ∧
    final.var_values = m.var_values := by
  unfold gdpopt_solve at hok
  by_cases hu : m.has_gdpopt_utils = true
  · rw [if_pos hu] at hok
    exact absurd hok (by simp)
  · rw [if_neg hu] at hok
    rcases hv : validate_model m.num_integer_variables
        m.num_active_objectives m.obj_sense with e | o
    · rw [hv] at hok
      cases e <;> simp at hok
    · rw [hv] at hok
      rcases hl : iteration_loop cfg orc m.var_is_binary
          (initial_loop_state m.var_values) with ⟨st2, b⟩
      rw [hl] at hok
      cases b
      · have hb := iteration_loop_best cfg orc m.var_is_binary
          (initial_loop_state m.var_values) hni
        rw [hl] at hb
        simp only [initial_loop_state] at hb
        simp only [SolveResult.ok.injEq] at hok
        obtain ⟨hfin, hst⟩ := hok
        subst hfin
        subst hst
        exact ⟨hb, by simp [hb]⟩
      · simp at hok

/-- C10 witness: the concrete model `mW` under the zero-limit configuration
and the never-improving oracle. -/
theorem no_improvement_preserves_values_witness :
    (initial_loop_state mW.var_values).best_solution_found = mW.var_values ∧
    ({ mW with has_gdpopt_utils := true } : PyModel).var_values
      = mW.var_values :=
  no_improvement_preserves_values cfgW0 orcW mW
    { mW with has_gdpopt_utils := true } (initial_loop_state mW.var_values)
    (fun _ => rfl) rfl

end GDPopt
